import Mathlib

/-!
Shallow embedding of the battery-charge-limit tool (`src/main.rs`,
`src/linux_service.rs`).

The program's effectful surface is made explicit:
* the filesystem is a value of type `FS` (an existence test modelling
  `fs::metadata(..).is_ok()` and a content map modelling
  `fs::read_to_string`);
* every spawned external process is a `Cmd` value (the `echo`/`sudo tee`
  pipeline of `write_protected`, and the `sudo systemctl`/`sudo rm`
  invocations), and the environment's behaviour towards a spawned process is
  an oracle `Env : Cmd → Outcome` (spawn failure, wait failure, or an exit
  status);
* each operation returns the updated filesystem, the ordered list of
  commands it spawned, and its `Result`.

`println!` output is not part of the command trace: it is unprivileged
process-local output, not an external operation.
-/

namespace Batterrier

/-! ## Character-level string helpers (models of the Rust `str` operations used) -/

/-- Drop leading and trailing whitespace, modelling Rust `str::trim` (the
inputs the program trims are ASCII, where Lean's `Char.isWhitespace` and
Rust's `char::is_whitespace` agree). -/
def trimChars (cs : List Char) : List Char :=
  ((cs.dropWhile Char.isWhitespace).reverse.dropWhile Char.isWhitespace).reverse

/-- `String` wrapper of `trimChars`. -/
def strTrim (s : String) : String := ⟨trimChars s.data⟩

/-- Numeric value of a list of decimal digit characters, most significant
digit first. -/
def digitsVal (cs : List Char) : Nat :=
  cs.foldl (fun a c => a * 10 + (c.toNat - '0'.toNat)) 0

/-- A nonempty run of decimal digits whose value is at most `maxVal`;
models the digit-accumulation loop of Rust's `from_str_radix`, whose
step-by-step overflow checks succeed exactly when the final value fits. -/
def parseDigitsLe (maxVal : Nat) (cs : List Char) : Option Nat :=
  if cs ≠ [] ∧ cs.all Char.isDigit then
    if digitsVal cs ≤ maxVal then some (digitsVal cs) else none
  else none

/-- Model of Rust `FromStr` for an unsigned integer type with maximum value
`maxVal`: an optional leading plus sign (a minus sign is not accepted for
unsigned types), then a nonempty digit run, value within range. -/
def rustParseUInt (maxVal : Nat) (s : String) : Option Nat :=
  match s.data with
  | [] => none
  | c :: rest =>
    if c = '+' then (if rest = [] then none else parseDigitsLe maxVal rest)
    else parseDigitsLe maxVal (c :: rest)

/-- Rust `u8::from_str`. -/
def rustParseU8 (s : String) : Option Nat := rustParseUInt 255 s

/-- Rust `u32::from_str` (used by serde for the `RestartSec` field). -/
def rustParseU32 (s : String) : Option Nat := rustParseUInt 4294967295 s

/-! ## Percent (src/main.rs lines 19-37) -/

/-- The error message of `Percent::from_str`. -/
def PERCENT_ERR : String := "Percent must be a number between 0 and 100"

/-- `struct Percent(u8)`. -/
structure Percent where
  val : Nat
deriving DecidableEq, Repr

deriving instance DecidableEq for Except

/-- Model of `Percent::from_str`: parse as `u8`, then reject values above
100. Both failure paths produce the same validation message. -/
def Percent.fromStr (s : String) : Except String Percent :=
  match rustParseU8 s with
  | none => Except.error PERCENT_ERR
  | some v => if 100 < v then Except.error PERCENT_ERR else Except.ok ⟨v⟩

/-- Model of `impl Display for Percent`: the decimal text of the value. -/
def Percent.display (p : Percent) : String := Nat.repr p.val

/-! ## Filesystem and process-environment model -/

/-- The observable filesystem: `metadataOk p` models `fs::metadata(p).is_ok()`
and `read p` models `fs::read_to_string(p)` (`none` = the read fails). -/
structure FS where
  metadataOk : String → Bool
  read : String → Option String

/-- Overwrite one path's content (the effect of a completed
`echo ... | sudo tee path` with exit status 0). -/
def FS.writeFile (fs : FS) (p c : String) : FS :=
  { metadataOk := fun q => if q = p then true else fs.metadataOk q
    read := fun q => if q = p then some c else fs.read q }

/-- Remove one path (the effect of a completed `sudo rm path` with exit
status 0). -/
def FS.removeFile (fs : FS) (p : String) : FS :=
  { metadataOk := fun q => if q = p then false else fs.metadataOk q
    read := fun q => if q = p then none else fs.read q }

/-- An external process the program spawns. `echo` is the unprivileged
producer of the `write_protected` pipeline; `sudoTee` is its privileged
consumer (`sudo tee <path>` with stdin piped from the `echo`); `sudo` is any
other `sudo <args>` invocation (`systemctl`, `rm`). -/
inductive Cmd where
  | echo (arg : String)
  | sudoTee (path : String)
  | sudo (args : List String)
deriving DecidableEq, Repr

/-- What the environment does with one spawned command: the `spawn()` call
itself fails, the `wait()` call fails, or the process runs to completion
with the given exit status. -/
inductive Outcome where
  | spawnFail
  | waitFail
  | exit (code : Nat)
deriving DecidableEq, Repr

/-- The environment's (deterministic) response to each spawned command. -/
def Env := Cmd → Outcome

/-- The error cases an operation can end in. -/
inductive Err where
  | readFail
  | parseFail
  | ioFail
deriving DecidableEq, Repr

/-! ## Device locator (src/main.rs lines 78-89, `BatteryLimiter::new`) -/

def POWER_SUPPLY_ROOT : String := "/sys/class/power_supply"

/-- The candidate device names, in the order the loop probes them. -/
def BAT_NAME : List String := ["BAT0", "BAT1", "BATT", "BATC"]

/-- `Path::new("/sys/class/power_supply").join(bat_name)`. -/
def batDir (n : String) : String := POWER_SUPPLY_ROOT ++ "/" ++ n

/-- The probing loop of `BatteryLimiter::new`. -/
def newLoop (fs : FS) : List String → Option String
  | [] => none
  | n :: ns => if fs.metadataOk (batDir n) then some (batDir n) else newLoop fs ns

/-- Model of `BatteryLimiter::new`: the resolved `bat_path`, or `none`
modelling `Err("Battery not found")`. -/
def new (fs : FS) : Option String := newLoop fs BAT_NAME

/-! ## Paths and the persisted-unit data model -/

def SERVICE_FILENAME : String := "battery-charge-threshold.service"

def SERVICE_PATH : String := "/etc/systemd/system/" ++ SERVICE_FILENAME

/-- `self.bat_path.join("charge_control_end_threshold")`. -/
def ctrlFilePath (batPath : String) : String :=
  batPath ++ "/charge_control_end_threshold"

/-- `struct Unit` of src/linux_service.rs (named apart from Lean's `Unit`). -/
structure UnitSection where
  description : String
deriving DecidableEq, Repr

/-- `struct Service` of src/linux_service.rs. -/
structure Service where
  user : Option String
  workingDirectory : Option String
  execStart : String
  restart : Option String
  restartSec : Option Nat
deriving DecidableEq, Repr

/-- `struct Install` of src/linux_service.rs. -/
structure Install where
  wantedBy : String
deriving DecidableEq, Repr

/-- `struct LinuxService` of src/linux_service.rs. -/
structure LinuxService where
  unit : UnitSection
  service : Service
  install : Install
deriving DecidableEq, Repr

/-! ## serde_ini serialization model

`serde_ini::to_string` writes each struct-of-structs field as an INI section
in field order, each leaf field as `PascalCaseKey=value` on one line, and
skips the `Option` fields that are `None` (`skip_serializing_if`).
`serde_ini::from_str` reads lines, switches section at `[Name]` headers, and
splits each assignment at its first `=`. Line separators are modelled as
`"\n"` uniformly on both sides. -/

/-- One optional `Key=value` line. -/
def optLine (k : String) : Option String → String
  | none => ""
  | some v => k ++ "=" ++ v ++ "\n"

/-- Model of `serde_ini::to_string` at type `LinuxService`. In the program
this returns a `Result`, but serialization of this struct of plain fields
cannot fail, so it is modelled total. -/
def iniToString (svc : LinuxService) : String :=
  "[Unit]\n" ++ "Description=" ++ svc.unit.description ++ "\n" ++
  "[Service]\n" ++
  optLine "User" svc.service.user ++
  optLine "WorkingDirectory" svc.service.workingDirectory ++
  "ExecStart=" ++ svc.service.execStart ++ "\n" ++
  optLine "Restart" svc.service.restart ++
  optLine "RestartSec" (svc.service.restartSec.map Nat.repr) ++
  "[Install]\n" ++ "WantedBy=" ++ svc.install.wantedBy ++ "\n"

/-- Split a character list into lines at `'\n'`. -/
def splitOnNl : List Char → List (List Char)
  | [] => [[]]
  | c :: cs =>
    if c = '\n' then [] :: splitOnNl cs
    else
      match splitOnNl cs with
      | [] => [[c]]
      | l :: ls => (c :: l) :: ls

/-- Split an assignment line at its first `=`. -/
def splitKV : List Char → Option (List Char × List Char)
  | [] => none
  | c :: rest =>
    if c = '=' then some ([], rest)
    else (splitKV rest).map fun p => (c :: p.1, p.2)

/-- Recognize a `[Name]` section header line. -/
def sectionName : List Char → Option (List Char)
  | '[' :: rest => if rest.getLast? = some ']' then some rest.dropLast else none
  | _ => none

/-- Collect `(section, key, value)` triples from the lines. -/
def iniPairs (sec : List Char) : List (List Char) → List (String × String × String)
  | [] => []
  | l :: ls =>
    match sectionName l with
    | some s => iniPairs s ls
    | none =>
      match splitKV l with
      | some (k, v) => (⟨sec⟩, ⟨k⟩, ⟨v⟩) :: iniPairs sec ls
      | none => iniPairs sec ls

/-- First value bound to `key` in `section`. -/
def lookupKV (ps : List (String × String × String)) (sec k : String) : Option String :=
  (ps.find? fun p => p.1 == sec && p.2.1 == k).map fun p => p.2.2

/-- Model of `serde_ini::from_str` at type `LinuxService` (`none` = a
deserialization error, as both call sites treat it). -/
def iniFromString (s : String) : Option LinuxService :=
  let ps := iniPairs [] (splitOnNl s.data)
  (lookupKV ps "Unit" "Description").bind fun d =>
  (lookupKV ps "Service" "ExecStart").bind fun es =>
  (lookupKV ps "Install" "WantedBy").map fun wb =>
  { unit := ⟨d⟩
    service :=
      { user := lookupKV ps "Service" "User"
        workingDirectory := lookupKV ps "Service" "WorkingDirectory"
        execStart := es
        restart := lookupKV ps "Service" "Restart"
        restartSec := (lookupKV ps "Service" "RestartSec").bind rustParseU32 }
    install := ⟨wb⟩ }

/-- Modelled from the spec: the bundled unit-file template
`battery-charge-threshold.service` sits at the repository root, outside
`src/`, so its exact text is unknown. Per the spec it has three sections:
unit metadata with a description field; service directives with a mandatory
start-command field (rewritten at runtime before every use, so its template
value never matters) and the optional user / working-directory /
restart-policy / restart-delay fields, taken absent; and install directives
with a mandatory target field. -/
def serviceTemplate : LinuxService :=
  { unit := ⟨"Set the battery charge threshold"⟩
    service :=
      { user := none
        workingDirectory := none
        execStart := ""
        restart := none
        restartSec := none }
    install := ⟨"multi-user.target"⟩ }

/-- The start command `set` writes into the unit:
`format!("/bin/bash -c 'echo {} > {}'", limit, ctrl_path)`. -/
def execStartCmd (limit : Percent) (ctrlPath : String) : String :=
  "/bin/bash -c 'echo " ++ limit.display ++ " > " ++ ctrlPath ++ "'"

/-- The `LinuxService` value `set` serializes: the template with its
`exec_start` field rewritten (src/main.rs lines 148-155). -/
def serviceFor (limit : Percent) (batPath : String) : LinuxService :=
  { serviceTemplate with
      service := { serviceTemplate.service with
                      execStart := execStartCmd limit (ctrlFilePath batPath) } }

/-- The unit-file text `set` writes. -/
def unitContents (limit : Percent) (batPath : String) : String :=
  iniToString (serviceFor limit batPath)

/-! ## The privileged write pipeline (src/main.rs lines 95-112) -/

/-- Model of `BatteryLimiter::write_protected`: spawn `echo contents`, pipe
its stdout into a spawned `sudo tee path`, wait for the `tee`, and succeed.
A failing `spawn()` or `wait()` call propagates as an error (`?`); the exit
status of the waited process is read but never inspected, so any exit status
yields `Ok(())`. The file changes only when the pipeline actually ran and
ended with status 0 (e.g. `sudo` declining credentials leaves it untouched).
The `echo` always has a piped stdout when it spawns, so the
`ok_or("No piped input from echo")` arm cannot fire and is not modelled. -/
def writeProtected (env : Env) (fs : FS) (path contents : String) :
    FS × List Cmd × Except Err Unit :=
  match env (Cmd.echo contents) with
  | Outcome.spawnFail => (fs, [Cmd.echo contents], Except.error Err.ioFail)
  | _ =>
    match env (Cmd.sudoTee path) with
    | Outcome.spawnFail =>
        (fs, [Cmd.echo contents, Cmd.sudoTee path], Except.error Err.ioFail)
    | Outcome.waitFail =>
        (fs, [Cmd.echo contents, Cmd.sudoTee path], Except.error Err.ioFail)
    | Outcome.exit 0 =>
        (fs.writeFile path (contents ++ "\n"),
         [Cmd.echo contents, Cmd.sudoTee path], Except.ok ())
    | Outcome.exit _ =>
        (fs, [Cmd.echo contents, Cmd.sudoTee path], Except.ok ())

/-! ## The limiter operations (src/main.rs lines 122-254) -/

/-- Model of `BatteryLimiter::get_value`: read the control file, trim,
parse as `Percent`. -/
def getValue (fs : FS) (batPath : String) : Except Err Percent :=
  match fs.read (ctrlFilePath batPath) with
  | none => Except.error Err.readFail
  | some s =>
    match Percent.fromStr (strTrim s) with
    | Except.error _ => Except.error Err.parseFail
    | Except.ok p => Except.ok p

/-- Model of `BatteryLimiter::set_value`: a privileged write of the limit's
decimal text into the control file. -/
def setValue (env : Env) (fs : FS) (batPath : String) (limit : Percent) :
    FS × List Cmd × Except Err Unit :=
  writeProtected env fs (ctrlFilePath batPath) limit.display

/-- The `sudo systemctl enable battery-charge-threshold.service` invocation
of `set` (the `formatcp!` string split on spaces). -/
def enableCmd : Cmd := Cmd.sudo ["systemctl", "enable", SERVICE_FILENAME]

/-- Model of `BatteryLimiter::set` (src/main.rs lines 137-169): read the old
value, unconditionally perform the privileged write of the new value, print
the transition, and stop there unless `persist`; with `persist`, rewrite the
template's start command, write the serialized unit file, and spawn
`sudo systemctl enable` (whose exit status is, again, never inspected). -/
def set (env : Env) (fs : FS) (batPath : String) (limit : Percent)
    (persist : Bool) : FS × List Cmd × Except Err Unit :=
  match getValue fs batPath with
  | Except.error e => (fs, [], Except.error e)
  | Except.ok _old =>
    match setValue env fs batPath limit with
    | (fs1, t1, Except.error e) => (fs1, t1, Except.error e)
    | (fs1, t1, Except.ok _) =>
      match persist with
      | false => (fs1, t1, Except.ok ())
      | true =>
        match writeProtected env fs1 SERVICE_PATH (unitContents limit batPath) with
        | (fs2, t2, Except.error e) => (fs2, t1 ++ t2, Except.error e)
        | (fs2, t2, Except.ok _) =>
          match env enableCmd with
          | Outcome.spawnFail => (fs2, t1 ++ t2 ++ [enableCmd], Except.error Err.ioFail)
          | Outcome.waitFail => (fs2, t1 ++ t2 ++ [enableCmd], Except.error Err.ioFail)
          | Outcome.exit _ => (fs2, t1 ++ t2 ++ [enableCmd], Except.ok ())

/-! ## Reading back the persisted value (src/main.rs lines 171-196) -/

/-- The fixed fragment of the extraction regex before the digit group:
`/bin/bash -c 'echo ` (the `\b` before the digits is vacuous here, since the
preceding space is a non-word character). -/
def reHead : List Char := "/bin/bash -c 'echo ".data

/-- The fixed fragment of the extraction regex after the digit group, with
the device name hard-coded to `BAT0` (the `\b` after the digits is vacuous,
since the following space is a non-word character). -/
def reTail : List Char :=
  " > /sys/class/power_supply/BAT0/charge_control_end_threshold'".data

/-- The maximal leading digit run and the remainder. -/
def takeDigits : List Char → List Char × List Char
  | [] => ([], [])
  | c :: cs =>
    if c.isDigit then
      match takeDigits cs with
      | (d, r) => (c :: d, r)
    else ([], c :: cs)

/-- Try the extraction regex anchored at the head of `cs`: the literal
`reHead`, then a nonempty digit run (greedy, and the character after it must
open `reTail`, which starts with a non-digit, so greediness is exact), then
the literal `reTail`. -/
def matchHere (cs : List Char) : Option (List Char) :=
  if reHead.isPrefixOf cs then
    match takeDigits (cs.drop reHead.length) with
    | (ds, rest) => if ds ≠ [] ∧ reTail.isPrefixOf rest then some ds else none
  else none

/-- Unanchored leftmost search of the extraction regex: the capture of
group 1 at the first position where the pattern matches. -/
def reSearch : List Char → Option (List Char)
  | [] => none
  | c :: cs =>
    match matchHere (c :: cs) with
    | some ds => some ds
    | none => reSearch cs

/-- Model of `BatteryLimiter::get_persisted`: read the unit file, parse it,
run the hard-coded regex over its start command, and parse the captured
digits back into a `Percent`; any failure collapses to `None`. -/
def getPersisted (fs : FS) : Option Percent :=
  (fs.read SERVICE_PATH).bind fun content =>
  (iniFromString content).bind fun svc =>
  (reSearch svc.service.execStart.data).bind fun ds =>
  (Percent.fromStr ⟨ds⟩).toOption

/-- Model of `BatteryLimiter::get`: the current value, paired with the
persisted value when one is found (`none` prints as `Not set`). -/
def getReport (fs : FS) (batPath : String) : Except Err (Percent × Option Percent) :=
  match getValue fs batPath with
  | Except.error e => Except.error e
  | Except.ok current => Except.ok (current, getPersisted fs)

/-! ## clean (src/main.rs lines 198-213) -/

/-- The `sudo rm /etc/systemd/system/battery-charge-threshold.service`
invocation of `clean`. -/
def rmCmd : Cmd := Cmd.sudo ["rm", SERVICE_PATH]

/-- Model of `BatteryLimiter::clean`: read the old value, write `100` via
`set_value`, print the transition, and, only when the unit file exists,
spawn `sudo rm` on it (whose exit status is never inspected; the file
disappears when the `rm` exits with status 0). No service-manager command
is spawned. -/
def clean (env : Env) (fs : FS) (batPath : String) :
    FS × List Cmd × Except Err Unit :=
  match getValue fs batPath with
  | Except.error e => (fs, [], Except.error e)
  | Except.ok _old =>
    match setValue env fs batPath ⟨100⟩ with
    | (fs1, t1, Except.error e) => (fs1, t1, Except.error e)
    | (fs1, t1, Except.ok _) =>
      if fs1.metadataOk SERVICE_PATH then
        match env rmCmd with
        | Outcome.spawnFail => (fs1, t1 ++ [rmCmd], Except.error Err.ioFail)
        | Outcome.waitFail => (fs1, t1 ++ [rmCmd], Except.error Err.ioFail)
        | Outcome.exit 0 => (fs1.removeFile SERVICE_PATH, t1 ++ [rmCmd], Except.ok ())
        | Outcome.exit _ => (fs1, t1 ++ [rmCmd], Except.ok ())
      else (fs1, t1, Except.ok ())

/-! ## info (src/main.rs lines 215-254) -/

/-- The fixed list of auxiliary attribute filenames, in source order. -/
def INFO_FILES : List String :=
  ["alarm", "capacity", "capacity_level", "charge_control_end_threshold",
   "cycle_count", "energy_full", "energy_full_design", "energy_now",
   "manufacturer", "model_name", "power_now", "present", "serial_number",
   "status", "technology", "type", "voltage_min_design", "voltage_now"]

/-- The `filter_map` of `info`: each attribute file that reads successfully
contributes its name and trimmed content; the rest are silently dropped. -/
def infoEntries (fs : FS) (batPath : String) : List (String × String) :=
  INFO_FILES.filterMap fun f =>
    (fs.read (batPath ++ "/" ++ f)).map fun v => (f, strTrim v)

/-- Rust `{s:<n$}`: left-align `s` in a field of width `n`. -/
def padTo (s : String) (n : Nat) : String :=
  ⟨s.data ++ List.replicate (n - s.length) ' '⟩

/-- `info.iter().map(|(file, _)| file.len()).max().unwrap_or(0)`. -/
def infoPad (entries : List (String × String)) : Nat :=
  entries.foldr (fun p m => max p.1.length m) 0

/-- The aligned attribute lines of `info` (one per present attribute). -/
def infoLines (fs : FS) (batPath : String) : List String :=
  (infoEntries fs batPath).map fun p =>
    padTo p.1 (infoPad (infoEntries fs batPath)) ++ " " ++ p.2

/-- The full text `info` prints: the path header, then the joined attribute
lines. `info` returns no `Result`: it is total. -/
def infoString (fs : FS) (batPath : String) : String :=
  "Path: " ++ batPath ++ "\n" ++ String.intercalate "\n" (infoLines fs batPath)

/-! ## Predicates on traces -/

/-- Whether a spawned command is a service-manager (`systemctl`) invocation. -/
def isSystemctl : Cmd → Bool
  | Cmd.sudo args => args.contains "systemctl"
  | _ => false

/-- Whether a spawned command carries the given word as an argument (used to
look for `daemon-reload` and `restart` subcommands). -/
def invokesArg (a : String) : Cmd → Bool
  | Cmd.sudo args => args.contains a
  | _ => false

/-! ## Concrete fixtures for witnesses and counterexamples -/

/-- A host whose `BAT0` directory exists, control file reads `80` with a
trailing newline, and no unit file is installed. -/
def fsBat0at80 : FS :=
  { metadataOk := fun p => p == batDir "BAT0"
    read := fun p => if p = ctrlFilePath (batDir "BAT0") then some "80\n" else none }

/-- A host whose battery is named `BAT1` (control file reads `70`), with no
unit file installed. -/
def fsBat1at70 : FS :=
  { metadataOk := fun p => p == batDir "BAT1"
    read := fun p => if p = ctrlFilePath (batDir "BAT1") then some "70\n" else none }

/-- A host with `BAT0` at `60` and a previously-persisted unit file. -/
def fsUnit60 : FS :=
  { metadataOk := fun p => p == batDir "BAT0" || p == SERVICE_PATH
    read := fun p =>
      if p = ctrlFilePath (batDir "BAT0") then some "60\n"
      else if p = SERVICE_PATH then some (unitContents ⟨60⟩ (batDir "BAT0") ++ "\n")
      else none }

/-- A host with no battery device and no readable files at all. -/
def fsEmpty : FS :=
  { metadataOk := fun _ => false
    read := fun _ => none }

/-- An environment where every spawned process runs and exits with status 0. -/
def envAllExit0 : Env := fun _ => Outcome.exit 0

/-- An environment where every `sudo tee` exits with status 1 (e.g. the user
declines the sudo prompt) while everything else exits 0. -/
def envTeeFails : Env := fun c =>
  match c with
  | Cmd.sudoTee _ => Outcome.exit 1
  | _ => Outcome.exit 0

/-! ## Helper lemmas -/

/-- A `write_protected` whose `echo` spawns and whose `tee` runs to an exit
status: the pipeline succeeds whatever the status is, and the file changes
exactly when the status is 0. -/
theorem writeProtected_run (env : Env) (fs : FS) (path contents : String) (n : Nat)
    (hE : env (Cmd.echo contents) ≠ Outcome.spawnFail)
    (hT : env (Cmd.sudoTee path) = Outcome.exit n) :
    writeProtected env fs path contents =
      (if n = 0 then fs.writeFile path (contents ++ "\n") else fs,
       [Cmd.echo contents, Cmd.sudoTee path], Except.ok ()) := by
  unfold writeProtected
  cases hEc : env (Cmd.echo contents) with
  | spawnFail => exact absurd hEc hE
  | waitFail =>
    rw [hT]
    cases n with
    | zero => simp
    | succ k => simp
  | exit m =>
    rw [hT]
    cases n with
    | zero => simp
    | succ k => simp

/-! ## C6 -/

/-- C6: for every integer v with 0 ≤ v ≤ 100, parsing the decimal text of v
as a `Percent` succeeds with value v, and displaying the resulting `Percent`
yields the same decimal text. -/
theorem percent_parse_display_roundtrip :
    ∀ v : Nat, v ≤ 100 →
      Percent.fromStr (Nat.repr v) = Except.ok ⟨v⟩ ∧
      Percent.display ⟨v⟩ = Nat.repr v := by
  decide

theorem percent_parse_display_roundtrip_witness :
    (80 : Nat) ≤ 100 ∧
      (Percent.fromStr (Nat.repr 80) = Except.ok ⟨80⟩ ∧
       Percent.display ⟨80⟩ = Nat.repr 80) :=
  ⟨by decide, percent_parse_display_roundtrip 80 (by decide)⟩

/-! ## C7 -/

/-- A digit run containing a non-digit character is rejected. -/
theorem all_isDigit_false_of_mem {l : List Char} {b : Char} (hb : b ∈ l)
    (hbd : b.isDigit = false) : l.all Char.isDigit = false := by
  cases hall : l.all Char.isDigit
  · rfl
  · have := List.all_eq_true.mp hall b hb
    rw [hbd] at this
    exact absurd this Bool.false_ne_true

/-- `parseDigitsLe` fails on any list containing a non-digit character. -/
theorem parseDigitsLe_eq_none {l : List Char} {b : Char} (m : Nat) (hb : b ∈ l)
    (hbd : b.isDigit = false) : parseDigitsLe m l = none := by
  unfold parseDigitsLe
  rw [if_neg]
  intro hcontr
  exact absurd (all_isDigit_false_of_mem hb hbd ▸ hcontr.2) Bool.false_ne_true

/-- C7: every input string that is decimal text denoting an integer above
100 (a nonempty all-digit string whose value exceeds 100), or that is
non-numeric (it contains a character that is neither a decimal digit nor
the plus sign Rust's integer grammar accepts, or it contains no digit at
all), is rejected by `Percent` parsing with the validation error message,
never a `Percent` value. -/
theorem percent_rejects_invalid (s : String)
    (h : (s.data ≠ [] ∧ (∀ c ∈ s.data, c.isDigit = true) ∧ 100 < digitsVal s.data) ∨
         (∃ c ∈ s.data, c.isDigit = false ∧ c ≠ '+') ∨
         (∀ c ∈ s.data, c.isDigit = false)) :
    Percent.fromStr s = Except.error PERCENT_ERR := by
  unfold Percent.fromStr rustParseU8 rustParseUInt
  cases hd : s.data with
  | nil =>
    rcases h with ⟨hne, _, _⟩ | ⟨b, hb, _⟩ | _
    · exact absurd hd hne
    · exact absurd (hd ▸ hb) (List.not_mem_nil b)
    · rfl
  | cons c rest =>
    rw [hd] at h
    dsimp only
    rcases h with ⟨_, hall, hgt⟩ | ⟨b, hb, hbd, hbp⟩ | hnone
    · have hc : c ≠ '+' := by
        intro hc
        have := hall c (List.mem_cons_self c rest)
        rw [hc] at this
        simp [Char.isDigit] at this
      rw [if_neg hc]
      unfold parseDigitsLe
      rw [if_pos ⟨List.cons_ne_nil c rest, List.all_eq_true.mpr hall⟩]
      by_cases h255 : digitsVal (c :: rest) ≤ 255
      · rw [if_pos h255]
        dsimp only
        rw [if_pos hgt]
      · rw [if_neg h255]
    · by_cases hc : c = '+'
      · rw [if_pos hc]
        have hbrest : b ∈ rest := by
          rcases List.mem_cons.mp hb with heq | hr
          · rw [heq, hc] at hbp
            exact absurd rfl hbp
          · exact hr
        rw [if_neg (List.ne_nil_of_mem hbrest),
          parseDigitsLe_eq_none 255 hbrest hbd]
      · rw [if_neg hc, parseDigitsLe_eq_none 255 hb hbd]
    · by_cases hc : c = '+'
      · rw [if_pos hc]
        cases rest with
        | nil => rfl
        | cons d ds =>
          rw [if_neg (List.cons_ne_nil d ds),
            parseDigitsLe_eq_none 255 (List.mem_cons_self d ds)
              (hnone d (List.mem_cons_of_mem c (List.mem_cons_self d ds)))]
      · rw [if_neg hc,
          parseDigitsLe_eq_none 255 (List.mem_cons_self c rest)
            (hnone c (List.mem_cons_self c rest))]

theorem percent_rejects_invalid_witness :
    Percent.fromStr "101" = Except.error PERCENT_ERR ∧
    Percent.fromStr "12a" = Except.error PERCENT_ERR ∧
    Percent.fromStr "limit" = Except.error PERCENT_ERR :=
  ⟨percent_rejects_invalid "101" (Or.inl (by decide)),
   percent_rejects_invalid "12a" (Or.inr (Or.inl (by decide))),
   percent_rejects_invalid "limit" (Or.inr (Or.inr (by decide)))⟩

/-! ## C2 -/

/-- C2 counterexample: with an environment where `sudo tee` runs and exits
with status 1, `write_protected` still returns success — the non-zero exit
status of the privileged pipeline is not turned into an error. -/
theorem write_ignores_exit_status_cex :
    envTeeFails (Cmd.sudoTee (ctrlFilePath (batDir "BAT0"))) = Outcome.exit 1 ∧
    (writeProtected envTeeFails fsBat0at80 (ctrlFilePath (batDir "BAT0")) "60").2.2 =
      Except.ok () := by
  constructor <;> rfl

/-- C2 amended: `write_protected` propagates a failing `spawn()` or `wait()`
call as an error, but never inspects the exit status of the waited process:
whenever the `echo` spawns and the `sudo tee` runs to completion with any
exit status n — zero or not — the operation reports success. -/
theorem writeProtected_ignores_exit_status (env : Env) (fs : FS)
    (path contents : String) (n : Nat)
    (hE : env (Cmd.echo contents) ≠ Outcome.spawnFail)
    (hT : env (Cmd.sudoTee path) = Outcome.exit n) :
    (writeProtected env fs path contents).2.2 = Except.ok () := by
  rw [writeProtected_run env fs path contents n hE hT]

theorem writeProtected_ignores_exit_status_witness :
    (writeProtected envTeeFails fsBat0at80 SERVICE_PATH "60").2.2 = Except.ok () :=
  writeProtected_ignores_exit_status envTeeFails fsBat0at80 SERVICE_PATH "60" 1
    (by decide) rfl

/-! ## C10 -/

/-- C10: when the control file cannot be read, or its content does not parse
as a `Percent`, both `set` (with either persist flag) and `clean` propagate
the initial `get_value` error, spawn no external process at all, and leave
the filesystem exactly as it was. -/
theorem set_clean_fail_fast (env : Env) (fs : FS) (batPath : String)
    (limit : Percent) (persist : Bool) (e : Err)
    (h : getValue fs batPath = Except.error e) :
    set env fs batPath limit persist = (fs, [], Except.error e) ∧
    clean env fs batPath = (fs, [], Except.error e) := by
  constructor
  · unfold Batterrier.set
    rw [h]
  · unfold clean
    rw [h]

theorem set_clean_fail_fast_witness :
    set envAllExit0 fsEmpty (batDir "BAT0") ⟨60⟩ true =
      (fsEmpty, [], Except.error Err.readFail) ∧
    clean envAllExit0 fsEmpty (batDir "BAT0") =
      (fsEmpty, [], Except.error Err.readFail) :=
  set_clean_fail_fast envAllExit0 fsEmpty (batDir "BAT0") ⟨60⟩ true Err.readFail rfl

/-! ## C8 -/

/-- C8: the device locator probes the candidates in the fixed order `BAT0`,
`BAT1`, `BATT`, `BATC`, returning the first whose base directory exists, and
returns the not-found error exactly when none of the four exists. Its result
is a pure function of the four existence bits of the filesystem state (so it
is deterministic and effect-free in this model). -/
theorem new_probes_fixed_order (fs : FS) :
    Batterrier.new fs =
      (if fs.metadataOk (batDir "BAT0") then some (batDir "BAT0")
       else if fs.metadataOk (batDir "BAT1") then some (batDir "BAT1")
       else if fs.metadataOk (batDir "BATT") then some (batDir "BATT")
       else if fs.metadataOk (batDir "BATC") then some (batDir "BATC")
       else none) ∧
    (Batterrier.new fs = none ↔
      ∀ n ∈ BAT_NAME, fs.metadataOk (batDir n) = false) := by
  constructor
  · rfl
  · cases h0 : fs.metadataOk (batDir "BAT0") <;>
    cases h1 : fs.metadataOk (batDir "BAT1") <;>
    cases h2 : fs.metadataOk (batDir "BATT") <;>
    cases h3 : fs.metadataOk (batDir "BATC") <;>
    simp_all [Batterrier.new, newLoop, BAT_NAME]

/-! ## C9 -/

/-- A `filterMap` by an option-valued function keeps exactly the elements
the function is defined at. -/
theorem length_filterMap_isSome {α β : Type} (g : α → Option β) :
    ∀ l : List α, (l.filterMap g).length = (l.filter fun a => (g a).isSome).length := by
  intro l
  induction l with
  | nil => rfl
  | cons a l ih => cases hg : g a <;> simp [List.filterMap_cons, List.filter_cons, hg, ih]

/-- Every present attribute name is at most as long as the padding width. -/
theorem length_le_infoPad (entries : List (String × String)) (p : String × String)
    (hp : p ∈ entries) : p.1.length ≤ infoPad entries := by
  induction entries with
  | nil => cases hp
  | cons q l ih =>
    rcases List.mem_cons.mp hp with rfl | hmem
    · exact le_max_left _ _
    · exact le_trans (ih hmem) (le_max_right _ _)

/-- C9: `info` is total (it cannot fail), produces exactly one line per
attribute file that is present and readable — absent attributes are silently
omitted — and aligns them: every line is a name padded to the length of the
longest present attribute name, a space, and the trimmed value. -/
theorem info_lines_aligned (fs : FS) (batPath : String) :
    (infoLines fs batPath).length =
      (INFO_FILES.filter fun f => (fs.read (batPath ++ "/" ++ f)).isSome).length ∧
    ∀ l ∈ infoLines fs batPath, ∃ p ∈ infoEntries fs batPath,
      l = padTo p.1 (infoPad (infoEntries fs batPath)) ++ " " ++ p.2 ∧
      (padTo p.1 (infoPad (infoEntries fs batPath))).length =
        infoPad (infoEntries fs batPath) := by
  constructor
  · rw [infoLines, List.length_map, infoEntries,
      length_filterMap_isSome (fun f => (fs.read (batPath ++ "/" ++ f)).map
        fun v => (f, strTrim v))]
    congr 1
    apply List.filter_congr
    intro f _
    cases fs.read (batPath ++ "/" ++ f) <;> rfl
  · intro l hl
    rcases List.mem_map.mp hl with ⟨p, hp, rfl⟩
    refine ⟨p, hp, rfl, ?_⟩
    have hle := length_le_infoPad (infoEntries fs batPath) p hp
    show (p.1.data ++ List.replicate (infoPad (infoEntries fs batPath) - p.1.length) ' ').length =
      infoPad (infoEntries fs batPath)
    rw [List.length_append, List.length_replicate]
    have hlen : p.1.data.length = p.1.length := rfl
    omega

/-! ## C1 -/

/-- C1 counterexample: with the on-disk value already equal to the desired
value (both 80) and no persistence requested, `set` still performs the
privileged write — the spawned trace is exactly the `echo 80 | sudo tee
<control file>` pipeline, not the empty trace of a "no-op success". -/
theorem set_no_shortcircuit_cex :
    getValue fsBat0at80 (batDir "BAT0") = Except.ok ⟨80⟩ ∧
    (set envAllExit0 fsBat0at80 (batDir "BAT0") ⟨80⟩ false).2.1 =
      [Cmd.echo "80", Cmd.sudoTee (ctrlFilePath (batDir "BAT0"))] := by
  constructor <;> rfl

/-- C1 amended: `set(v, persist=false)` never short-circuits: after the old
value is read successfully it always performs exactly the `set_value`
privileged write, whether or not the old value equals the new one (and it
reports the `old -> new` transition, never "unchanged"). -/
theorem set_nopersist_always_writes (env : Env) (fs : FS) (batPath : String)
    (limit old : Percent) (h : getValue fs batPath = Except.ok old) :
    set env fs batPath limit false = setValue env fs batPath limit := by
  unfold Batterrier.set
  rw [h]
  rcases hw : setValue env fs batPath limit with ⟨fs1, t1, r1⟩
  cases r1 <;> rfl

theorem set_nopersist_always_writes_witness :
    set envAllExit0 fsBat0at80 (batDir "BAT0") ⟨80⟩ false =
      setValue envAllExit0 fsBat0at80 (batDir "BAT0") ⟨80⟩ :=
  set_nopersist_always_writes envAllExit0 fsBat0at80 (batDir "BAT0") ⟨80⟩ ⟨80⟩ rfl

/-! ## C4 -/

/-- C4 counterexample: `clean` on a host with an installed unit file
succeeds, its spawned trace is exactly `echo 100 | sudo tee <control>`
followed by `sudo rm <unit file>`, and that trace contains no service
manager (`systemctl`) invocation at all — the unit is never
disabled/unregistered. -/
theorem clean_no_disable_cex :
    fsUnit60.metadataOk SERVICE_PATH = true ∧
    (clean envAllExit0 fsUnit60 (batDir "BAT0")).2.2 = Except.ok () ∧
    (clean envAllExit0 fsUnit60 (batDir "BAT0")).2.1 =
      [Cmd.echo "100", Cmd.sudoTee (ctrlFilePath (batDir "BAT0")), rmCmd] ∧
    ((clean envAllExit0 fsUnit60 (batDir "BAT0")).2.1.all fun c => !isSystemctl c) =
      true := by
  exact ⟨rfl, rfl, rfl, rfl⟩

/-- C4 amended: `clean` writes 100 to the control file via `set_value`; when
the unit file exists it additionally spawns `sudo rm` on it (removing it if
the `rm` exits 0), but performs no service-manager disable/unregister call;
when no unit file exists it succeeds having spawned nothing but the control
write. -/
theorem clean_removes_without_disable (env : Env) (fs : FS) (batPath : String)
    (old : Percent) (n : Nat)
    (hget : getValue fs batPath = Except.ok old)
    (hE : env (Cmd.echo (Percent.display ⟨100⟩)) ≠ Outcome.spawnFail)
    (hT : env (Cmd.sudoTee (ctrlFilePath batPath)) = Outcome.exit 0)
    (hne : ctrlFilePath batPath ≠ SERVICE_PATH)
    (hRm : env rmCmd = Outcome.exit n) :
    (fs.metadataOk SERVICE_PATH = false →
      clean env fs batPath =
        (fs.writeFile (ctrlFilePath batPath) (Percent.display ⟨100⟩ ++ "\n"),
         [Cmd.echo (Percent.display ⟨100⟩), Cmd.sudoTee (ctrlFilePath batPath)],
         Except.ok ())) ∧
    (fs.metadataOk SERVICE_PATH = true →
      clean env fs batPath =
        ((if n = 0 then
            (fs.writeFile (ctrlFilePath batPath)
              (Percent.display ⟨100⟩ ++ "\n")).removeFile SERVICE_PATH
          else fs.writeFile (ctrlFilePath batPath) (Percent.display ⟨100⟩ ++ "\n")),
         [Cmd.echo (Percent.display ⟨100⟩), Cmd.sudoTee (ctrlFilePath batPath), rmCmd],
         Except.ok ())) ∧
    ((clean env fs batPath).2.1.all fun c => !isSystemctl c) = true := by
  have hmeta : (fs.writeFile (ctrlFilePath batPath)
      (Percent.display ⟨100⟩ ++ "\n")).metadataOk SERVICE_PATH =
      fs.metadataOk SERVICE_PATH := by
    dsimp only [FS.writeFile]
    rw [if_neg (Ne.symm hne)]
  have hbody : clean env fs batPath =
      (match setValue env fs batPath ⟨100⟩ with
       | (fs1, t1, Except.error e) => (fs1, t1, Except.error e)
       | (fs1, t1, Except.ok _) =>
         if fs1.metadataOk SERVICE_PATH then
           match env rmCmd with
           | Outcome.spawnFail => (fs1, t1 ++ [rmCmd], Except.error Err.ioFail)
           | Outcome.waitFail => (fs1, t1 ++ [rmCmd], Except.error Err.ioFail)
           | Outcome.exit 0 =>
               (fs1.removeFile SERVICE_PATH, t1 ++ [rmCmd], Except.ok ())
           | Outcome.exit _ => (fs1, t1 ++ [rmCmd], Except.ok ())
         else (fs1, t1, Except.ok ())) := by
    unfold clean
    rw [hget]
  rw [setValue, writeProtected_run env fs (ctrlFilePath batPath)
    (Percent.display ⟨100⟩) 0 hE hT, if_pos rfl] at hbody
  dsimp only at hbody
  rw [hmeta] at hbody
  constructor
  · intro hm
    rw [hbody, hm, if_neg Bool.false_ne_true]
  refine ⟨?_, ?_⟩
  · intro hm
    rw [hbody, hm, if_pos rfl, hRm]
    cases n with
    | zero => rfl
    | succ k => rfl
  · cases hm : fs.metadataOk SERVICE_PATH
    · rw [hbody, hm, if_neg Bool.false_ne_true]
      rfl
    · rw [hbody, hm, if_pos rfl, hRm]
      cases n with
      | zero => rfl
      | succ k => rfl

theorem clean_removes_without_disable_witness :
    (fsUnit60.metadataOk SERVICE_PATH = false →
      clean envAllExit0 fsUnit60 (batDir "BAT0") =
        (fsUnit60.writeFile (ctrlFilePath (batDir "BAT0"))
          (Percent.display ⟨100⟩ ++ "\n"),
         [Cmd.echo (Percent.display ⟨100⟩),
          Cmd.sudoTee (ctrlFilePath (batDir "BAT0"))], Except.ok ())) ∧
    (fsUnit60.metadataOk SERVICE_PATH = true →
      clean envAllExit0 fsUnit60 (batDir "BAT0") =
        ((if (0 : Nat) = 0 then
            (fsUnit60.writeFile (ctrlFilePath (batDir "BAT0"))
              (Percent.display ⟨100⟩ ++ "\n")).removeFile SERVICE_PATH
          else fsUnit60.writeFile (ctrlFilePath (batDir "BAT0"))
            (Percent.display ⟨100⟩ ++ "\n")),
         [Cmd.echo (Percent.display ⟨100⟩),
          Cmd.sudoTee (ctrlFilePath (batDir "BAT0")), rmCmd], Except.ok ())) ∧
    ((clean envAllExit0 fsUnit60 (batDir "BAT0")).2.1.all fun c => !isSystemctl c) =
      true :=
  clean_removes_without_disable envAllExit0 fsUnit60 (batDir "BAT0") ⟨60⟩ 0
    rfl (by decide) rfl (by decide) rfl

/-! ## C5 -/

/-- A successful `set(v, persist=true)`: the spawned trace, in order, is the
control-value pipeline (`echo v`, `sudo tee <control>`), the unit-file
pipeline (`echo <unit text>`, `sudo tee <unit path>`), then `sudo systemctl
enable`; the result is success and the filesystem picks up the writes whose
`tee` exited 0. -/
theorem set_persist_run (env : Env) (fs : FS) (batPath : String)
    (limit old : Percent) (n1 n2 n3 : Nat)
    (hget : getValue fs batPath = Except.ok old)
    (hE1 : env (Cmd.echo limit.display) ≠ Outcome.spawnFail)
    (hT1 : env (Cmd.sudoTee (ctrlFilePath batPath)) = Outcome.exit n1)
    (hE2 : env (Cmd.echo (unitContents limit batPath)) ≠ Outcome.spawnFail)
    (hT2 : env (Cmd.sudoTee SERVICE_PATH) = Outcome.exit n2)
    (hEn : env enableCmd = Outcome.exit n3) :
    set env fs batPath limit true =
      ((if n2 = 0 then
          (if n1 = 0 then
            fs.writeFile (ctrlFilePath batPath) (limit.display ++ "\n")
           else fs).writeFile SERVICE_PATH (unitContents limit batPath ++ "\n")
        else if n1 = 0 then
          fs.writeFile (ctrlFilePath batPath) (limit.display ++ "\n")
        else fs),
       [Cmd.echo limit.display, Cmd.sudoTee (ctrlFilePath batPath),
        Cmd.echo (unitContents limit batPath), Cmd.sudoTee SERVICE_PATH, enableCmd],
       Except.ok ()) := by
  unfold Batterrier.set
  rw [hget, setValue,
    writeProtected_run env fs (ctrlFilePath batPath) limit.display n1 hE1 hT1]
  dsimp only
  rw [writeProtected_run env _ SERVICE_PATH (unitContents limit batPath) n2 hE2 hT2]
  dsimp only
  rw [hEn]
  rfl

/-- C5 amended: a successful `set(v, persist=true)` performs its external
operations in the strict order (1) privileged write of the control value,
(2) privileged write of the unit file, (3) `systemctl enable` — and nothing
else: no daemon-reload step and no restart step exists in the trace. -/
theorem set_persist_order (env : Env) (fs : FS) (batPath : String)
    (limit old : Percent) (n1 n2 n3 : Nat)
    (hget : getValue fs batPath = Except.ok old)
    (hE1 : env (Cmd.echo limit.display) ≠ Outcome.spawnFail)
    (hT1 : env (Cmd.sudoTee (ctrlFilePath batPath)) = Outcome.exit n1)
    (hE2 : env (Cmd.echo (unitContents limit batPath)) ≠ Outcome.spawnFail)
    (hT2 : env (Cmd.sudoTee SERVICE_PATH) = Outcome.exit n2)
    (hEn : env enableCmd = Outcome.exit n3) :
    (set env fs batPath limit true).2.2 = Except.ok () ∧
    (set env fs batPath limit true).2.1 =
      [Cmd.echo limit.display, Cmd.sudoTee (ctrlFilePath batPath),
       Cmd.echo (unitContents limit batPath), Cmd.sudoTee SERVICE_PATH,
       enableCmd] ∧
    ((set env fs batPath limit true).2.1.all fun c =>
        !invokesArg "daemon-reload" c && !invokesArg "restart" c) = true := by
  rw [set_persist_run env fs batPath limit old n1 n2 n3 hget hE1 hT1 hE2 hT2 hEn]
  exact ⟨rfl, rfl, rfl⟩

theorem set_persist_order_witness :
    (set envAllExit0 fsBat0at80 (batDir "BAT0") ⟨60⟩ true).2.2 = Except.ok () ∧
    (set envAllExit0 fsBat0at80 (batDir "BAT0") ⟨60⟩ true).2.1 =
      [Cmd.echo (Percent.display ⟨60⟩),
       Cmd.sudoTee (ctrlFilePath (batDir "BAT0")),
       Cmd.echo (unitContents ⟨60⟩ (batDir "BAT0")), Cmd.sudoTee SERVICE_PATH,
       enableCmd] ∧
    ((set envAllExit0 fsBat0at80 (batDir "BAT0") ⟨60⟩ true).2.1.all fun c =>
        !invokesArg "daemon-reload" c && !invokesArg "restart" c) = true :=
  set_persist_order envAllExit0 fsBat0at80 (batDir "BAT0") ⟨60⟩ ⟨80⟩ 0 0 0
    rfl (by decide) rfl (by decide) rfl rfl

/-- C5 counterexample: a concrete successful `set(60, persist=true)` whose
trace contains neither a daemon-reload nor a restart invocation — the
claimed steps (4) and (5) never happen. -/
theorem set_persist_no_reload_restart_cex :
    (set envAllExit0 fsBat0at80 (batDir "BAT0") ⟨60⟩ true).2.2 = Except.ok () ∧
    ((set envAllExit0 fsBat0at80 (batDir "BAT0") ⟨60⟩ true).2.1.all fun c =>
        !invokesArg "daemon-reload" c && !invokesArg "restart" c) = true := by
  constructor <;> rfl

/-! ## C3 -/

set_option maxRecDepth 100000

/-- The extraction pipeline of `get_persisted`, applied to the exact
unit-file text `set` writes for a `BAT0` handle, recovers the written value:
checked for each of the 101 possible `Percent` values. -/
theorem persisted_core : ∀ v < 101,
    ((iniFromString (unitContents ⟨v⟩ (batDir "BAT0") ++ "\n")).bind fun svc =>
      (reSearch svc.service.execStart.data).bind fun ds =>
      (Percent.fromStr ⟨ds⟩).toOption) = some ⟨v⟩ := by
  decide

/-- C3 counterexample: on a host whose resolved handle is the candidate
`BAT1`, a `set(60, persist=true)` succeeds, but `get_persisted` on the
resulting state returns `none` ("Not set"), not 60 — the extraction regex
hard-codes `BAT0` and never matches the written start command. -/
theorem persisted_not_bat0_cex :
    Batterrier.new fsBat1at70 = some (batDir "BAT1") ∧
    (set envAllExit0 fsBat1at70 (batDir "BAT1") ⟨60⟩ true).2.2 = Except.ok () ∧
    getPersisted (set envAllExit0 fsBat1at70 (batDir "BAT1") ⟨60⟩ true).1 = none := by
  refine ⟨rfl, rfl, rfl⟩

/-- C3 amended: after a successful `set(v, persist=true)`, `get()` reports
the persisted value v — extracted by pattern-matching the start command in
the written unit file — when the resolved handle is `BAT0`; for the other
candidate device names the hard-coded `BAT0` extraction pattern fails to
match and the persisted value is reported as not set. -/
theorem persisted_reported_for_bat0 (env : Env) (fs : FS) (v : Nat) (old : Percent)
    (hv : v ≤ 100)
    (hget : getValue fs (batDir "BAT0") = Except.ok old)
    (hE1 : env (Cmd.echo (Percent.display ⟨v⟩)) ≠ Outcome.spawnFail)
    (hT1 : env (Cmd.sudoTee (ctrlFilePath (batDir "BAT0"))) = Outcome.exit 0)
    (hE2 : env (Cmd.echo (unitContents ⟨v⟩ (batDir "BAT0"))) ≠ Outcome.spawnFail)
    (hT2 : env (Cmd.sudoTee SERVICE_PATH) = Outcome.exit 0)
    (n : Nat) (hEn : env enableCmd = Outcome.exit n) :
    (set env fs (batDir "BAT0") ⟨v⟩ true).2.2 = Except.ok () ∧
    getPersisted (set env fs (batDir "BAT0") ⟨v⟩ true).1 = some ⟨v⟩ := by
  have hrun := set_persist_run env fs (batDir "BAT0") ⟨v⟩ old 0 0 n
    hget hE1 hT1 hE2 hT2 hEn
  constructor
  · rw [hrun]
  · have hread : ((set env fs (batDir "BAT0") ⟨v⟩ true).1).read SERVICE_PATH =
        some (unitContents ⟨v⟩ (batDir "BAT0") ++ "\n") := by
      rw [hrun]
      rfl
    simp only [getPersisted, hread, Option.some_bind]
    exact persisted_core v (Nat.lt_succ_of_le hv)

theorem persisted_reported_for_bat0_witness :
    (set envAllExit0 fsBat0at80 (batDir "BAT0") ⟨60⟩ true).2.2 = Except.ok () ∧
    getPersisted (set envAllExit0 fsBat0at80 (batDir "BAT0") ⟨60⟩ true).1 =
      some ⟨60⟩ :=
  persisted_reported_for_bat0 envAllExit0 fsBat0at80 60 ⟨80⟩ (by decide) rfl
    (by decide) rfl (by decide) rfl 0 rfl

end Batterrier
